import Mathlib

/-!
Verification of the deferred draw-command batching pipeline of bracket-lib
(bracket-terminal/src/consoles/command_buffer.rs), as a shallow embedding.

Conventions of the embedding:
* `f32` payloads (colors, alpha channels, floating positions, rotations) are
  never computed with in this core: they are stored in commands and forwarded
  verbatim to the renderer. They are therefore represented by the exact
  carrier `ℚ` (any carrier with decidable equality would do).
* Machine integers: `u32` order keys and the `z_count` counter are `Nat`,
  with the counter increment taken mod 2^32 (release-mode wrapping);
  `i32` fields are `Int`; `u16` (`FontCharType`) values are `Nat` produced
  by the fallible conversion `tryIntoU16`.
* Fallible operations (builder methods whose `try_into().ok().expect(...)`
  can panic) return `Option`: `none` models the panic, in which case no
  command is appended.
* The global mutable state (`COMMAND_BUFFER`, the object pool) is passed
  explicitly: the queue is a `List` of `(priority, commands)` entries and
  the pool is a stack of `DrawBatch` values.
* `slice::sort_by` (used by `DrawBatch::submit`) is documented by Rust to be
  a stable sort; a stable sort by a total key order is extensionally unique,
  so it is embedded as `List.insertionSort` by key.
* `slice::sort_unstable_by` (used by `render_draw_buffer`) guarantees only
  that the result is a permutation of the input that is sorted by the
  comparator; the flush is therefore parameterized over any function
  satisfying exactly that contract (`IsPrioritySort`).
-/

namespace BracketTerminal

/-- Carrier for `f32` payloads; see the header comment. No arithmetic is ever
performed on these values in this core. -/
abbrev F32 := ℚ

/-- `bracket_geometry::Point` (src/bracket-geometry/src/point.rs): a 2D point
with `i32` coordinates. -/
structure Point where
  x : Int
  y : Int
deriving DecidableEq

/-- Modelled from the spec: `PointF` is a 2D floating-point position
(geometry primitives are external collaborators; only the value shape is
needed here). -/
structure PointF where
  x : F32
  y : F32
deriving DecidableEq

/-- Modelled from the spec: the integer rectangle type `Rect` used by box and
fill commands; its source is not under src/ (only the floating variant
`RectF` is), so it is modelled after the spec sentence "rectangle command decomposes
into explicit x/y/width/height calls" and the sibling `RectF` in
src/bracket-geometry/src/rectf.rs. -/
structure Rect where
  x1 : Int
  y1 : Int
  x2 : Int
  y2 : Int
deriving DecidableEq

/-- Width of a rectangle, `abs(x2 - x1)`, mirroring `RectF::width`. -/
def Rect.width (r : Rect) : Int := |r.x2 - r.x1|

/-- Height of a rectangle, `abs(y2 - y1)`, mirroring `RectF::height`. -/
def Rect.height (r : Rect) : Int := |r.y2 - r.y1|

/-- Modelled from the spec: an RGBA color value (color types are external
plain value types). -/
structure RGBA where
  r : F32
  g : F32
  b : F32
  a : F32
deriving DecidableEq

/-- Modelled from the spec: a foreground/background color tuple. -/
structure ColorPair where
  fg : RGBA
  bg : RGBA
deriving DecidableEq

/-- Modelled from the spec: a rotation expressed in radians (an inert payload
forwarded to the renderer). -/
structure Radians where
  val : F32
deriving DecidableEq

/-- Modelled from the spec: text alignment selector for the markup printer. -/
inductive TextAlign where
  | Left
  | Center
  | Right
deriving DecidableEq

/-- `FontCharType` is `u16` in bracket-terminal; values are `Nat` below
`2^16`, produced only through `tryIntoU16`. -/
abbrev FontCharType := Nat

/-- The `DrawCommand` enum of command_buffer.rs: one variant per buffered
renderer intent, each carrying exactly the data needed to execute it. -/
inductive DrawCommand where
  | ClearScreen
  | ClearToColor (color : RGBA)
  | SetTarget (console : Nat)
  | Set (pos : Point) (color : ColorPair) (glyph : FontCharType)
  | SetBackground (pos : Point) (bg : RGBA)
  | Print (pos : Point) (text : String)
  | PrintColor (pos : Point) (text : String) (color : ColorPair)
  | PrintRight (pos : Point) (text : String)
  | PrintColorRight (pos : Point) (text : String) (color : ColorPair)
  | PrintCentered (y : Int) (text : String)
  | PrintColorCentered (y : Int) (text : String) (color : ColorPair)
  | PrintCenteredAt (pos : Point) (text : String)
  | PrintColorCenteredAt (pos : Point) (text : String) (color : ColorPair)
  | Printer (pos : Point) (text : String) (align : TextAlign)
      (background : Option RGBA)
  | Box (pos : Rect) (color : ColorPair)
  | HollowBox (pos : Rect) (color : ColorPair)
  | DoubleBox (pos : Rect) (color : ColorPair)
  | HollowDoubleBox (pos : Rect) (color : ColorPair)
  | FillRegion (pos : Rect) (color : ColorPair) (glyph : FontCharType)
  | BarHorizontal (pos : Point) (width : Int) (n : Int) (max : Int)
      (color : ColorPair)
  | BarVertical (pos : Point) (height : Int) (n : Int) (max : Int)
      (color : ColorPair)
  | SetClipping (clip : Option Rect)
  | SetFgAlpha (alpha : F32)
  | SetBgAlpha (alpha : F32)
  | SetAllAlpha (fg : F32) (bg : F32)
  | SetFancy (position : PointF) (z_order : Int) (rotation : Radians)
      (color : ColorPair) (glyph : FontCharType) (scale : PointF)
deriving DecidableEq

/-- Modelled from the spec: one renderer primitive invocation (a `BTerm`
method call with its arguments). `BTerm` itself is an external collaborator
(its implementation is not under src/); the spec lists the primitives
consumed, and each constructor records the argument shape used at the call
site in `render_draw_buffer`. -/
inductive RenderCall where
  | cls
  | cls_bg (color : RGBA)
  | set_active_console (console : Nat)
  | set (x y : Int) (fg bg : RGBA) (glyph : FontCharType)
  | set_bg (x y : Int) (bg : RGBA)
  | print (x y : Int) (text : String)
  | print_color (x y : Int) (fg bg : RGBA) (text : String)
  | print_centered (y : Int) (text : String)
  | print_color_centered (y : Int) (fg bg : RGBA) (text : String)
  | print_centered_at (x y : Int) (text : String)
  | print_color_centered_at (x y : Int) (fg bg : RGBA) (text : String)
  | print_right (x y : Int) (text : String)
  | print_color_right (x y : Int) (fg bg : RGBA) (text : String)
  | printer (x y : Int) (text : String) (align : TextAlign)
      (background : Option RGBA)
  | draw_box (x y w h : Int) (fg bg : RGBA)
  | draw_hollow_box (x y w h : Int) (fg bg : RGBA)
  | draw_box_double (x y w h : Int) (fg bg : RGBA)
  | draw_hollow_box_double (x y w h : Int) (fg bg : RGBA)
  | fill_region (pos : Rect) (glyph : FontCharType) (fg bg : RGBA)
  | draw_bar_horizontal (x y width n max : Int) (fg bg : RGBA)
  | draw_bar_vertical (x y height n max : Int) (fg bg : RGBA)
  | set_clipping (clip : Option Rect)
  | set_all_fg_alpha (alpha : F32)
  | set_all_bg_alpha (alpha : F32)
  | set_all_alpha (fg bg : F32)
  | set_fancy (position : PointF) (z_order : Int) (rotation : Radians)
      (scale : PointF) (fg bg : RGBA) (glyph : FontCharType)
deriving DecidableEq

/-- The dispatch switch of `render_draw_buffer` (command_buffer.rs lines
863-960): maps one queued command to the renderer primitive the code invokes
for it, translating geometry/color shapes exactly as the call sites do.
Note the `SetBgAlpha` arm: the source (line 946) calls
`bterm.set_all_fg_alpha(*alpha)`. -/
def dispatchCommand : DrawCommand → RenderCall
  | .ClearScreen => .cls
  | .ClearToColor color => .cls_bg color
  | .SetTarget console => .set_active_console console
  | .Set pos color glyph => .set pos.x pos.y color.fg color.bg glyph
  | .SetBackground pos bg => .set_bg pos.x pos.y bg
  | .Print pos text => .print pos.x pos.y text
  | .PrintColor pos text color =>
      .print_color pos.x pos.y color.fg color.bg text
  | .PrintCentered y text => .print_centered y text
  | .PrintColorCentered y text color =>
      .print_color_centered y color.fg color.bg text
  | .PrintCenteredAt pos text => .print_centered_at pos.x pos.y text
  | .PrintColorCenteredAt pos text color =>
      .print_color_centered_at pos.x pos.y color.fg color.bg text
  | .PrintRight pos text => .print_right pos.x pos.y text
  | .PrintColorRight pos text color =>
      .print_color_right pos.x pos.y color.fg color.bg text
  | .Printer pos text align background =>
      .printer pos.x pos.y text align background
  | .Box pos color =>
      .draw_box pos.x1 pos.y1 pos.width pos.height color.fg color.bg
  | .HollowBox pos color =>
      .draw_hollow_box pos.x1 pos.y1 pos.width pos.height color.fg color.bg
  | .DoubleBox pos color =>
      .draw_box_double pos.x1 pos.y1 pos.width pos.height color.fg color.bg
  | .HollowDoubleBox pos color =>
      .draw_hollow_box_double pos.x1 pos.y1 pos.width pos.height
        color.fg color.bg
  | .FillRegion pos color glyph => .fill_region pos glyph color.fg color.bg
  | .BarHorizontal pos width n max color =>
      .draw_bar_horizontal pos.x pos.y width n max color.fg color.bg
  | .BarVertical pos height n max color =>
      .draw_bar_vertical pos.x pos.y height n max color.fg color.bg
  | .SetClipping clip => .set_clipping clip
  | .SetFgAlpha alpha => .set_all_fg_alpha alpha
  | .SetBgAlpha alpha => .set_all_fg_alpha alpha
  | .SetAllAlpha fg bg => .set_all_alpha fg bg
  | .SetFancy position z_order rotation color glyph scale =>
      .set_fancy position z_order rotation scale color.fg color.bg glyph

/-- One global-queue entry, as pushed by `submit`: a `(priority, commands)`
pair (`COMMAND_BUFFER` holds `(usize, Vec<DrawCommand>)`). -/
abbrev QEntry := Nat × List DrawCommand

/-- The global submission queue `COMMAND_BUFFER`, passed explicitly. -/
abbrev Queue := List QEntry

/-- `2^32`, the modulus of the `u32` order-key counter. -/
def U32_MOD : Nat := 4294967296

/-- The `DrawBatch` struct: an ordered list of `(u32 order-key, command)`
pairs, the implicit-key counter, and the needs-sort flag. -/
structure DrawBatch where
  batch : List (Nat × DrawCommand)
  z_count : Nat
  needs_sort : Bool
deriving DecidableEq

/-- `DrawBatch::next_z`: returns the current counter value and increments it
(wrapping `u32` arithmetic). -/
def DrawBatch.next_z (b : DrawBatch) : Nat × DrawBatch :=
  (b.z_count, { b with z_count := (b.z_count + 1) % U32_MOD })

/-- The shared shape of every implicit-order builder method: take `next_z()`
as the order key, then push `(z, cmd)` onto the batch. Each builder below is
definitionally this applied to its own command. -/
def DrawBatch.pushNext (b : DrawBatch) (cmd : DrawCommand) : DrawBatch :=
  let p := b.next_z
  { p.2 with batch := p.2.batch ++ [(p.1, cmd)] }

/-- The shared shape of every explicit-order (`*_with_z`) builder method:
push `(z, cmd)` with the key given by the caller and set the needs-sort flag. -/
def DrawBatch.pushWithZ (b : DrawBatch) (cmd : DrawCommand) (z : Nat) :
    DrawBatch :=
  { b with batch := b.batch ++ [(z, cmd)], needs_sort := true }

/-- `TryInto<FontCharType>` (`u16`) from an integer input: succeeds exactly on
`0 ≤ g < 2^16`, yielding the value unchanged. -/
def tryIntoU16 (g : Int) : Option Nat :=
  if 0 ≤ g ∧ g < 65536 then some g.toNat else none

/-- `TryInto<i32>` from an integer input: succeeds exactly on the `i32`
range, yielding the value unchanged. -/
def tryIntoI32 (x : Int) : Option Int :=
  if -2147483648 ≤ x ∧ x < 2147483648 then some x else none

/-- Key order used by the stable sort in `submit`: compare the `u32` order keys
(`a.0.cmp(&b.0)`). -/
def keyLE (a b : Nat × DrawCommand) : Prop := a.1 ≤ b.1

instance : DecidableRel keyLE := fun a b => Nat.decLe a.1 b.1

instance : IsTotal (Nat × DrawCommand) keyLE := ⟨fun a b => Nat.le_total a.1 b.1⟩

instance : IsTrans (Nat × DrawCommand) keyLE := ⟨fun _ _ _ h1 h2 => Nat.le_trans h1 h2⟩

instance : IsRefl (Nat × DrawCommand) keyLE := ⟨fun a => Nat.le_refl a.1⟩

/-- `DrawBatch::submit(z_order)`: if the needs-sort flag is set, stable-sort
the `(key, command)` pairs by key (`slice::sort_by`, stable per its contract,
embedded as insertion sort by key); drain the commands (dropping the keys)
into a fresh list; push `(z_order, list)` onto the global queue. Returns the
grown queue and the emptied batch (counter and flag are untouched). -/
def DrawBatch.submit (b : DrawBatch) (z_order : Nat) (q : Queue) :
    Queue × DrawBatch :=
  let sorted := if b.needs_sort then List.insertionSort keyLE b.batch else b.batch
  (q ++ [(z_order, sorted.map Prod.snd)], { b with batch := [] })

/-- The command list `submit` queues for a batch (the projection of
`DrawBatch.submit` onto the payload of the new entry). -/
def DrawBatch.submitList (b : DrawBatch) : List DrawCommand :=
  (if b.needs_sort then List.insertionSort keyLE b.batch else b.batch).map Prod.snd

/-- The contract Rust gives for `slice::sort_unstable_by` with the priority
comparator (`a.0.cmp(&b.0)`): the result is a permutation of the input that
is sorted by priority. Nothing more is guaranteed; in particular the order
of equal-priority entries is unspecified. -/
def IsPrioritySort (f : Queue → Queue) : Prop :=
  ∀ l : Queue, (f l).Perm l ∧ (f l).Pairwise (fun a b => a.1 ≤ b.1)

/-- `render_draw_buffer(bterm)`: lock the queue, sort it by priority with
`sort_unstable_by` (any `IsPrioritySort` function `f`), dispatch every
command of every entry in order, then clear the queue. Returns the trace of
renderer calls and the cleared queue. -/
def renderDrawBuffer (f : Queue → Queue) (q : Queue) :
    List RenderCall × Queue :=
  ((f q).flatMap (fun e => e.2.map dispatchCommand), [])

/-- The flush trace with each renderer call tagged by the priority of the
queue entry it came from (instrumentation for stating cross-batch ordering;
projecting the tags away yields the `renderDrawBuffer` trace). -/
def renderTraceTagged (f : Queue → Queue) (q : Queue) :
    List (Nat × RenderCall) :=
  (f q).flatMap (fun e => e.2.map (fun c => (e.1, dispatchCommand c)))

/-- Entry order used to build a concrete witness sort: compare priorities. -/
def entryLE (a b : QEntry) : Prop := a.1 ≤ b.1

instance : DecidableRel entryLE := fun a b => Nat.decLe a.1 b.1

instance : IsTotal QEntry entryLE := ⟨fun a b => Nat.le_total a.1 b.1⟩

instance : IsTrans QEntry entryLE := ⟨fun _ _ _ h1 h2 => Nat.le_trans h1 h2⟩

/-- A concrete function satisfying `IsPrioritySort` (used to instantiate the
abstract flush sort in witnesses). -/
def sortEntries (q : Queue) : Queue := List.insertionSort entryLE q

/-- The object pool `BUFFER_POOL`, passed explicitly as a stack of batches
(`object_pool::Pool` stores its free objects in a vector; `pull` pops the
last one, `attach` pushes one back). -/
abbrev BatchPool := List DrawBatch

/-- `Pool::pull` without fallback: pop the most recently returned batch, or
`none` when the pool is exhausted (the fallback closure in the source panics with
"No pooling!"). -/
def BatchPool.pull (p : BatchPool) : Option (DrawBatch × BatchPool) :=
  match p.getLast? with
  | some b => some (b, p.dropLast)
  | none => none

/-- Returning a batch to the pool (the drop of a `Reusable` / `Pool::attach`). -/
def BatchPool.attach (p : BatchPool) (b : DrawBatch) : BatchPool := p ++ [b]

/-- The batch created by the pool initializer: empty, counter 0, flag clear. -/
def freshBatch : DrawBatch := { batch := [], z_count := 0, needs_sort := false }

/-- `DrawBatch::new()`: pull a batch from the pool, reset its `z_count` to 0
and clear its `needs_sort` flag, and hand it to the caller. Nothing else on
the pulled batch is touched. -/
def DrawBatch.new (p : BatchPool) : Option (DrawBatch × BatchPool) :=
  (BatchPool.pull p).map
    (fun x => ({ x.1 with z_count := 0, needs_sort := false }, x.2))

/-- Appending a list of commands through implicit-order builder calls. -/
def appendAll (b : DrawBatch) (cmds : List DrawCommand) : DrawBatch :=
  cmds.foldl DrawBatch.pushNext b

/-! The builder methods of `DrawBatch`, one per command kind. Every implicit
builder has the body `let z = self.next_z(); self.batch.push((z, cmd))`,
which is `pushNext`; every `*_with_z` builder has the body
`self.batch.push((z, cmd)); self.needs_sort = true`, which is `pushWithZ`.
Builders whose source performs a fallible `try_into()` conversion return
`Option`, with `none` for the panic path. Generic source parameters are
instantiated: `TryInto<FontCharType>` / `TryInto<i32>` inputs as `Int`,
`Into<RGBA>` as `RGBA`, `Into<Radians>` as `Radians`, `ToString` as
`String`. -/

/-- `DrawBatch::cls`. -/
def DrawBatch.cls (b : DrawBatch) : DrawBatch :=
  b.pushNext DrawCommand.ClearScreen

/-- `DrawBatch::cls_color`. -/
def DrawBatch.cls_color (b : DrawBatch) (color : RGBA) : DrawBatch :=
  b.pushNext (DrawCommand.ClearToColor color)

/-- `DrawBatch::target`. -/
def DrawBatch.target (b : DrawBatch) (console : Nat) : DrawBatch :=
  b.pushNext (DrawCommand.SetTarget console)

/-- `DrawBatch::set`: converts the glyph to `u16`, panicking (`none`) when
the conversion fails; on success pushes the converted value unchanged. -/
def DrawBatch.set (b : DrawBatch) (pos : Point) (color : ColorPair)
    (glyph : Int) : Option DrawBatch :=
  (tryIntoU16 glyph).map (fun g => b.pushNext (DrawCommand.Set pos color g))

/-- `DrawBatch::set_with_z`. -/
def DrawBatch.set_with_z (b : DrawBatch) (pos : Point) (color : ColorPair)
    (glyph : Int) (z : Nat) : Option DrawBatch :=
  (tryIntoU16 glyph).map (fun g => b.pushWithZ (DrawCommand.Set pos color g) z)

/-- `DrawBatch::set_fancy` (fallible in its `z_order` and `glyph`
conversions, in that order). -/
def DrawBatch.set_fancy (b : DrawBatch) (position : PointF) (z_order : Int)
    (rotation : Radians) (scale : PointF) (color : ColorPair)
    (glyph : Int) : Option DrawBatch := do
  let z ← tryIntoI32 z_order
  let g ← tryIntoU16 glyph
  pure (b.pushNext (DrawCommand.SetFancy position z rotation color g scale))

/-- `DrawBatch::set_bg`. -/
def DrawBatch.set_bg (b : DrawBatch) (pos : Point) (bg : RGBA) : DrawBatch :=
  b.pushNext (DrawCommand.SetBackground pos bg)

/-- `DrawBatch::set_bg_with_z`. -/
def DrawBatch.set_bg_with_z (b : DrawBatch) (pos : Point) (bg : RGBA)
    (z : Nat) : DrawBatch :=
  b.pushWithZ (DrawCommand.SetBackground pos bg) z

/-- `DrawBatch::printer`. -/
def DrawBatch.printer (b : DrawBatch) (pos : Point) (text : String)
    (align : TextAlign) (background : Option RGBA) : DrawBatch :=
  b.pushNext (DrawCommand.Printer pos text align background)

/-- `DrawBatch::printer_with_z`. -/
def DrawBatch.printer_with_z (b : DrawBatch) (pos : Point) (text : String)
    (align : TextAlign) (background : Option RGBA) (z : Nat) : DrawBatch :=
  b.pushWithZ (DrawCommand.Printer pos text align background) z

/-- `DrawBatch::print`. -/
def DrawBatch.print (b : DrawBatch) (pos : Point) (text : String) :
    DrawBatch :=
  b.pushNext (DrawCommand.Print pos text)

/-- `DrawBatch::print_with_z`. -/
def DrawBatch.print_with_z (b : DrawBatch) (pos : Point) (text : String)
    (z : Nat) : DrawBatch :=
  b.pushWithZ (DrawCommand.Print pos text) z

/-- `DrawBatch::print_color`. -/
def DrawBatch.print_color (b : DrawBatch) (pos : Point) (text : String)
    (color : ColorPair) : DrawBatch :=
  b.pushNext (DrawCommand.PrintColor pos text color)

/-- `DrawBatch::print_color_with_z`. -/
def DrawBatch.print_color_with_z (b : DrawBatch) (pos : Point)
    (text : String) (color : ColorPair) (z : Nat) : DrawBatch :=
  b.pushWithZ (DrawCommand.PrintColor pos text color) z

/-- `DrawBatch::print_centered` (fallible `y` conversion to `i32`). -/
def DrawBatch.print_centered (b : DrawBatch) (y : Int) (text : String) :
    Option DrawBatch :=
  (tryIntoI32 y).map (fun yy => b.pushNext (DrawCommand.PrintCentered yy text))

/-- `DrawBatch::print_centered_with_z`. -/
def DrawBatch.print_centered_with_z (b : DrawBatch) (y : Int) (text : String)
    (z : Nat) : Option DrawBatch :=
  (tryIntoI32 y).map
    (fun yy => b.pushWithZ (DrawCommand.PrintCentered yy text) z)

/-- `DrawBatch::print_color_centered` (fallible `y` conversion). -/
def DrawBatch.print_color_centered (b : DrawBatch) (y : Int) (text : String)
    (color : ColorPair) : Option DrawBatch :=
  (tryIntoI32 y).map
    (fun yy => b.pushNext (DrawCommand.PrintColorCentered yy text color))

/-- `DrawBatch::print_color_centered_with_z`. -/
def DrawBatch.print_color_centered_with_z (b : DrawBatch) (y : Int)
    (text : String) (color : ColorPair) (z : Nat) : Option DrawBatch :=
  (tryIntoI32 y).map
    (fun yy => b.pushWithZ (DrawCommand.PrintColorCentered yy text color) z)

/-- `DrawBatch::print_centered_at`. -/
def DrawBatch.print_centered_at (b : DrawBatch) (pos : Point)
    (text : String) : DrawBatch :=
  b.pushNext (DrawCommand.PrintCenteredAt pos text)

/-- `DrawBatch::print_centered_at_with_z`. -/
def DrawBatch.print_centered_at_with_z (b : DrawBatch) (pos : Point)
    (text : String) (z : Nat) : DrawBatch :=
  b.pushWithZ (DrawCommand.PrintCenteredAt pos text) z

/-- `DrawBatch::print_color_centered_at`. -/
def DrawBatch.print_color_centered_at (b : DrawBatch) (pos : Point)
    (text : String) (color : ColorPair) : DrawBatch :=
  b.pushNext (DrawCommand.PrintColorCenteredAt pos text color)

/-- `DrawBatch::print_color_centered_at_with_z`. -/
def DrawBatch.print_color_centered_at_with_z (b : DrawBatch) (pos : Point)
    (text : String) (color : ColorPair) (z : Nat) : DrawBatch :=
  b.pushWithZ (DrawCommand.PrintColorCenteredAt pos text color) z

/-- `DrawBatch::print_right`. -/
def DrawBatch.print_right (b : DrawBatch) (pos : Point) (text : String) :
    DrawBatch :=
  b.pushNext (DrawCommand.PrintRight pos text)

/-- `DrawBatch::print_right_z`. -/
def DrawBatch.print_right_z (b : DrawBatch) (pos : Point) (text : String)
    (z : Nat) : DrawBatch :=
  b.pushWithZ (DrawCommand.PrintRight pos text) z

/-- `DrawBatch::print_color_right`. -/
def DrawBatch.print_color_right (b : DrawBatch) (pos : Point)
    (text : String) (color : ColorPair) : DrawBatch :=
  b.pushNext (DrawCommand.PrintColorRight pos text color)

/-- `DrawBatch::print_color_right_with_z`. -/
def DrawBatch.print_color_right_with_z (b : DrawBatch) (pos : Point)
    (text : String) (color : ColorPair) (z : Nat) : DrawBatch :=
  b.pushWithZ (DrawCommand.PrintColorRight pos text color) z

/-- `DrawBatch::draw_box`. -/
def DrawBatch.draw_box (b : DrawBatch) (pos : Rect) (color : ColorPair) :
    DrawBatch :=
  b.pushNext (DrawCommand.Box pos color)

/-- `DrawBatch::draw_box_with_z`. -/
def DrawBatch.draw_box_with_z (b : DrawBatch) (pos : Rect)
    (color : ColorPair) (z : Nat) : DrawBatch :=
  b.pushWithZ (DrawCommand.Box pos color) z

/-- `DrawBatch::draw_hollow_box`. -/
def DrawBatch.draw_hollow_box (b : DrawBatch) (pos : Rect)
    (color : ColorPair) : DrawBatch :=
  b.pushNext (DrawCommand.HollowBox pos color)

/-- `DrawBatch::draw_hollow_box_with_z`. -/
def DrawBatch.draw_hollow_box_with_z (b : DrawBatch) (pos : Rect)
    (color : ColorPair) (z : Nat) : DrawBatch :=
  b.pushWithZ (DrawCommand.HollowBox pos color) z

/-- `DrawBatch::draw_double_box`. -/
def DrawBatch.draw_double_box (b : DrawBatch) (pos : Rect)
    (color : ColorPair) : DrawBatch :=
  b.pushNext (DrawCommand.DoubleBox pos color)

/-- `DrawBatch::draw_double_box_with_z`. -/
def DrawBatch.draw_double_box_with_z (b : DrawBatch) (pos : Rect)
    (color : ColorPair) (z : Nat) : DrawBatch :=
  b.pushWithZ (DrawCommand.DoubleBox pos color) z

/-- `DrawBatch::draw_hollow_double_box`. -/
def DrawBatch.draw_hollow_double_box (b : DrawBatch) (pos : Rect)
    (color : ColorPair) : DrawBatch :=
  b.pushNext (DrawCommand.HollowDoubleBox pos color)

/-- `DrawBatch::draw_hollow_double_box_with_z`. -/
def DrawBatch.draw_hollow_double_box_with_z (b : DrawBatch) (pos : Rect)
    (color : ColorPair) (z : Nat) : DrawBatch :=
  b.pushWithZ (DrawCommand.HollowDoubleBox pos color) z

/-- `DrawBatch::fill_region` (fallible glyph conversion). -/
def DrawBatch.fill_region (b : DrawBatch) (pos : Rect) (color : ColorPair)
    (glyph : Int) : Option DrawBatch :=
  (tryIntoU16 glyph).map
    (fun g => b.pushNext (DrawCommand.FillRegion pos color g))

/-- `DrawBatch::fill_region_with_z`. -/
def DrawBatch.fill_region_with_z (b : DrawBatch) (pos : Rect)
    (color : ColorPair) (glyph : Int) (z : Nat) : Option DrawBatch :=
  (tryIntoU16 glyph).map
    (fun g => b.pushWithZ (DrawCommand.FillRegion pos color g) z)

/-- `DrawBatch::bar_horizontal` (fallible `width`, `n`, `max` conversions,
in that order). -/
def DrawBatch.bar_horizontal (b : DrawBatch) (pos : Point)
    (width n maxv : Int) (color : ColorPair) : Option DrawBatch := do
  let w ← tryIntoI32 width
  let nn ← tryIntoI32 n
  let m ← tryIntoI32 maxv
  pure (b.pushNext (DrawCommand.BarHorizontal pos w nn m color))

/-- `DrawBatch::bar_horizontal_with_z`. -/
def DrawBatch.bar_horizontal_with_z (b : DrawBatch) (pos : Point)
    (width n maxv : Int) (color : ColorPair) (z : Nat) : Option DrawBatch := do
  let w ← tryIntoI32 width
  let nn ← tryIntoI32 n
  let m ← tryIntoI32 maxv
  pure (b.pushWithZ (DrawCommand.BarHorizontal pos w nn m color) z)

/-- `DrawBatch::bar_vertical`. -/
def DrawBatch.bar_vertical (b : DrawBatch) (pos : Point)
    (height n maxv : Int) (color : ColorPair) : Option DrawBatch := do
  let h ← tryIntoI32 height
  let nn ← tryIntoI32 n
  let m ← tryIntoI32 maxv
  pure (b.pushNext (DrawCommand.BarVertical pos h nn m color))

/-- `DrawBatch::bar_vertical_with_z`. -/
def DrawBatch.bar_vertical_with_z (b : DrawBatch) (pos : Point)
    (height n maxv : Int) (color : ColorPair) (z : Nat) : Option DrawBatch := do
  let h ← tryIntoI32 height
  let nn ← tryIntoI32 n
  let m ← tryIntoI32 maxv
  pure (b.pushWithZ (DrawCommand.BarVertical pos h nn m color) z)

/-- `DrawBatch::set_clipping`. -/
def DrawBatch.set_clipping (b : DrawBatch) (clip : Option Rect) : DrawBatch :=
  b.pushNext (DrawCommand.SetClipping clip)

/-- `DrawBatch::set_all_fg_alpha`. -/
def DrawBatch.set_all_fg_alpha (b : DrawBatch) (alpha : F32) : DrawBatch :=
  b.pushNext (DrawCommand.SetFgAlpha alpha)

/-- `DrawBatch::set_all_bg_alpha`. -/
def DrawBatch.set_all_bg_alpha (b : DrawBatch) (alpha : F32) : DrawBatch :=
  b.pushNext (DrawCommand.SetBgAlpha alpha)

/-- `DrawBatch::set_all_alpha`. -/
def DrawBatch.set_all_alpha (b : DrawBatch) (fg bg : F32) : DrawBatch :=
  b.pushNext (DrawCommand.SetAllAlpha fg bg)

/-! Concrete fixtures used by witnesses and counterexamples. -/

/-- A concrete white-on-black color pair. -/
def cpW : ColorPair := ⟨⟨1, 1, 1, 1⟩, ⟨0, 0, 0, 1⟩⟩

/-- The concrete scenario queue of the spec: batch A = set cell + print at
priority 5 submitted first, batch B = clear screen at priority 1 submitted
second. -/
def q4 : Queue :=
  [(5, [DrawCommand.Set ⟨1, 1⟩ cpW 64, DrawCommand.Print ⟨2, 2⟩ "hi"]),
   (1, [DrawCommand.ClearScreen])]

/-- A batch holding an implicit-key command ("A", key 0) followed by an
explicit-key command ("B", explicit key 0, tying the implicit key), so its
needs-sort flag is set. -/
def c6batch : DrawBatch :=
  (freshBatch.print ⟨0, 0⟩ "A").print_with_z ⟨1, 1⟩ "B" 0

/-- Two batches submitted at the same priority 5, first "A" then "B". -/
def cexQueue : Queue :=
  [(5, [DrawCommand.Print ⟨1, 1⟩ "A"]), (5, [DrawCommand.Print ⟨2, 2⟩ "B"])]

/-- A priority sort satisfying everything `slice::sort_unstable_by`
guarantees (sorted permutation) that swaps the two equal-priority entries of
`cexQueue`. -/
def swapEqual (l : Queue) : Queue :=
  if l = cexQueue then cexQueue.reverse else sortEntries l

/-! Helper lemmas. -/

theorem sortEntries_isPrioritySort : IsPrioritySort sortEntries := by
  intro l
  refine ⟨List.perm_insertionSort entryLE l, ?_⟩
  exact (List.sorted_insertionSort entryLE l).imp (fun h => h)

theorem isPrioritySort_nil {f : Queue → Queue} (hf : IsPrioritySort f) :
    f [] = [] :=
  List.perm_nil.mp (hf []).1

theorem isPrioritySort_singleton {f : Queue → Queue} (hf : IsPrioritySort f)
    (e : QEntry) : f [e] = [e] :=
  List.perm_singleton.mp (hf [e]).1

theorem appendAll_batch_map (b : DrawBatch) (cmds : List DrawCommand) :
    (appendAll b cmds).batch.map Prod.snd = b.batch.map Prod.snd ++ cmds := by
  induction cmds generalizing b with
  | nil => simp [appendAll]
  | cons c cmds ih =>
    show (appendAll (b.pushNext c) cmds).batch.map Prod.snd = _
    rw [ih]
    simp [DrawBatch.pushNext, DrawBatch.next_z]

theorem appendAll_needs_sort (b : DrawBatch) (cmds : List DrawCommand) :
    (appendAll b cmds).needs_sort = b.needs_sort := by
  induction cmds generalizing b with
  | nil => rfl
  | cons c cmds ih =>
    show (appendAll (b.pushNext c) cmds).needs_sort = _
    rw [ih]
    rfl

theorem filter_orderedInsert_keyLE (a : Nat × DrawCommand)
    (l : List (Nat × DrawCommand)) (k : Nat) :
    (List.orderedInsert keyLE a l).filter (fun x => x.1 == k) =
      if a.1 = k then a :: l.filter (fun x => x.1 == k)
      else l.filter (fun x => x.1 == k) := by
  have hsplit := List.orderedInsert_eq_take_drop keyLE a l
  have hwhole : l.filter (fun x => x.1 == k) =
      (l.takeWhile (fun b => decide (¬ keyLE a b))).filter
          (fun x => x.1 == k) ++
        (l.dropWhile (fun b => decide (¬ keyLE a b))).filter
          (fun x => x.1 == k) := by
    conv_lhs => rw [← List.takeWhile_append_dropWhile
      (p := fun b => decide (¬ keyLE a b)) (l := l)]
    rw [List.filter_append]
  rw [hsplit, List.filter_append, List.filter_cons]
  by_cases hk : a.1 = k
  · have hnil :
        (l.takeWhile (fun b => decide (¬ keyLE a b))).filter
          (fun x => x.1 == k) = [] := by
      rw [List.filter_eq_nil_iff]
      intro x hx
      have hxp := List.mem_takeWhile_imp hx
      have hlt : x.1 < a.1 := Nat.lt_of_not_le (by simpa [keyLE] using hxp)
      simp only [beq_iff_eq]
      omega
    have hbeq : (a.1 == k) = true := beq_iff_eq.mpr hk
    rw [hnil, List.nil_append, if_pos hbeq, if_pos hk, hwhole, hnil,
      List.nil_append]
  · have hbeq : ¬ ((a.1 == k) = true) := by simpa using hk
    rw [if_neg hbeq, if_neg hk, hwhole]

theorem filter_insertionSort_keyLE (l : List (Nat × DrawCommand)) (k : Nat) :
    (List.insertionSort keyLE l).filter (fun x => x.1 == k) =
      l.filter (fun x => x.1 == k) := by
  induction l with
  | nil => rfl
  | cons a l ih =>
    show (List.orderedInsert keyLE a (List.insertionSort keyLE l)).filter
        (fun x => x.1 == k) = _
    rw [filter_orderedInsert_keyLE, ih, List.filter_cons]
    by_cases hk : a.1 = k <;> simp [hk]

theorem pairwise_const {α : Type _} {l : List α} {P : Prop} (hp : P) :
    l.Pairwise (fun _ _ => P) := by
  induction l with
  | nil => exact .nil
  | cons a t ih => exact .cons (fun _ _ => hp) ih

theorem pairwise_fst_flatMap (entries : List QEntry)
    (h : entries.Pairwise (fun a b => a.1 ≤ b.1)) :
    (entries.flatMap
        (fun e => e.2.map (fun c => (e.1, dispatchCommand c)))).Pairwise
      (fun a b => a.1 ≤ b.1) := by
  induction entries with
  | nil => simp
  | cons e es ih =>
    rw [List.flatMap_cons]
    rcases List.pairwise_cons.mp h with ⟨hhead, htail⟩
    refine List.pairwise_append.mpr ⟨?_, ih htail, ?_⟩
    · refine List.pairwise_map.mpr ?_
      exact pairwise_const (Nat.le_refl e.1)
    · intro a ha b hb
      rcases List.mem_map.mp ha with ⟨c, _, rfl⟩
      rcases List.mem_flatMap.mp hb with ⟨e', he', hb'⟩
      rcases List.mem_map.mp hb' with ⟨c', _, rfl⟩
      exact hhead e' he'

theorem renderTraceTagged_map_snd (f : Queue → Queue) (q : Queue) :
    (renderTraceTagged f q).map Prod.snd = (renderDrawBuffer f q).1 := by
  show ((f q).flatMap
      (fun e => e.2.map (fun c => (e.1, dispatchCommand c)))).map Prod.snd = _
  rw [List.map_flatMap]
  simp only [List.map_map]
  rfl

theorem pull_attach (p : BatchPool) (b : DrawBatch) :
    BatchPool.pull (p.attach b) = some (b, p) := by
  simp [BatchPool.pull, BatchPool.attach]

theorem new_attach (p : BatchPool) (b : DrawBatch) :
    DrawBatch.new (p.attach b) =
      some ({ b with z_count := 0, needs_sort := false }, p) := by
  simp [DrawBatch.new, pull_attach]

/-! Claim theorems. -/

/-- C2: the flush dispatch of a queued `DrawCommand::SetBgAlpha` command.
The claim says it is dispatched to the background-alpha renderer primitive
`set_all_bg_alpha`; the source (command_buffer.rs line 946) instead calls
`bterm.set_all_fg_alpha(*alpha)`. Evaluated at the failing input
`SetBgAlpha { alpha: 1/2 }`: the dispatched call is the foreground-alpha
primitive, not the background-alpha one. -/
theorem setBgAlpha_misdispatch :
    dispatchCommand (DrawCommand.SetBgAlpha (1 / 2)) =
      RenderCall.set_all_fg_alpha (1 / 2) ∧
    dispatchCommand (DrawCommand.SetBgAlpha (1 / 2)) ≠
      RenderCall.set_all_bg_alpha (1 / 2) :=
  ⟨rfl, by simp [dispatchCommand]⟩

/-- C9: a builder call whose glyph conversion into the `u16` renderer type
`FontCharType` fails aborts (returns `none`, modelling the
`.expect("Must be u16 convertible")` panic) without appending any command;
when the conversion succeeds, the appended command stores exactly the
converted input (the round-trip back to `Int` is the identity), never a
truncated value. -/
theorem set_glyph_conversion (b : DrawBatch) (pos : Point)
    (color : ColorPair) (glyph : Int) :
    (0 ≤ glyph ∧ glyph < 65536 →
      DrawBatch.set b pos color glyph =
        some { b with
          batch := b.batch ++ [(b.z_count, DrawCommand.Set pos color glyph.toNat)],
          z_count := (b.z_count + 1) % U32_MOD } ∧
      (glyph.toNat : Int) = glyph) ∧
    (¬ (0 ≤ glyph ∧ glyph < 65536) →
      DrawBatch.set b pos color glyph = none) := by
  constructor
  · intro h
    constructor
    · simp [DrawBatch.set, tryIntoU16, h, DrawBatch.pushNext, DrawBatch.next_z]
    · exact Int.toNat_of_nonneg h.1
  · intro h
    simp [DrawBatch.set, tryIntoU16, h]

/-- Witness for C9: glyph 65 is convertible and is stored exactly; glyph
70000 exceeds the `u16` range and the operation aborts with no command
appended. -/
theorem set_glyph_conversion_witness :
    DrawBatch.set freshBatch ⟨1, 2⟩ cpW 70000 = none ∧
    ((65 : Int).toNat : Int) = 65 ∧
    DrawBatch.set freshBatch ⟨1, 2⟩ cpW 65 =
      some { batch := [(0, DrawCommand.Set ⟨1, 2⟩ cpW 65)], z_count := 1,
             needs_sort := false } := by
  refine ⟨(set_glyph_conversion freshBatch ⟨1, 2⟩ cpW 70000).2 (by decide),
    ((set_glyph_conversion freshBatch ⟨1, 2⟩ cpW 65).1 (by decide)).2, ?_⟩
  exact ((set_glyph_conversion freshBatch ⟨1, 2⟩ cpW 65).1 (by decide)).1

/-- C8: `submit(priority)` appends exactly one entry to the global queue —
the previously queued entries are preserved as a prefix, the length grows by
one, and the single new entry is `(priority, list)` with `list` being the
batch commands, keys dropped, a permutation of the appended command sequence — and
it leaves the batch empty while touching neither its counter nor its flag. -/
theorem submit_frame_effect (b : DrawBatch) (p : Nat) (q : Queue) :
    (b.submit p q).1.take q.length = q ∧
    (b.submit p q).1.length = q.length + 1 ∧
    (b.submit p q).1.drop q.length = [(p, b.submitList)] ∧
    b.submitList.Perm (b.batch.map Prod.snd) ∧
    (b.submit p q).2.batch = [] ∧
    (b.submit p q).2.z_count = b.z_count ∧
    (b.submit p q).2.needs_sort = b.needs_sort := by
  refine ⟨?_, ?_, ?_, ?_, rfl, rfl, rfl⟩
  · exact List.take_left q _
  · simp [DrawBatch.submit]
  · exact List.drop_left q _
  · unfold DrawBatch.submitList
    by_cases hns : b.needs_sort
    · rw [if_pos hns]
      exact (List.perm_insertionSort keyLE b.batch).map Prod.snd
    · rw [if_neg hns]

/-- C10: `DrawBatch::new()` resets only the order-key counter and the
needs-sort flag of the batch it pulls from the pool and does not clear its
command list, so a batch returned holding commands still holds them on its
next checkout, and a submission made from the recycled batch (with no
further appends) queues exactly those stale commands. -/
theorem new_keeps_stale_commands (p : BatchPool) (b : DrawBatch) (pr : Nat)
    (q : Queue) :
    DrawBatch.new (p.attach b) =
      some ({ batch := b.batch, z_count := 0, needs_sort := false }, p) ∧
    (DrawBatch.submit
        { batch := b.batch, z_count := 0, needs_sort := false } pr q).1 =
      q ++ [(pr, b.batch.map Prod.snd)] :=
  ⟨new_attach p b, rfl⟩

/-- C3 counterexample: check a fresh batch out of the pool, append one
command (`cls`) without submitting, drop it back, and check out again: the
claim says the next checkout contains no leftover commands, but the observed
batch still holds the `ClearScreen` command. -/
theorem new_after_drop_has_leftovers :
    DrawBatch.new [freshBatch] = some (freshBatch, []) ∧
    DrawBatch.new (BatchPool.attach [] freshBatch.cls) =
      some ({ batch := [(0, DrawCommand.ClearScreen)], z_count := 0,
              needs_sort := false }, []) ∧
    ({ batch := [(0, DrawCommand.ClearScreen)], z_count := 0,
       needs_sort := false } : DrawBatch).batch ≠ [] :=
  ⟨rfl, rfl, by simp⟩

/-- C3 (amended): after a batch is returned to the pool, the next checkout
of it observes the order-key counter reset to 0 and the needs-sort flag
cleared, but the command list exactly as it was returned; in particular a
batch emptied by `submit` is observed empty, while a batch dropped with
unsubmitted commands still holds them. -/
theorem new_resets_counter_and_flag_only (p : BatchPool) (b : DrawBatch)
    (pr : Nat) (q : Queue) :
    DrawBatch.new (p.attach b) =
      some ({ batch := b.batch, z_count := 0, needs_sort := false }, p) ∧
    DrawBatch.new (p.attach (b.submit pr q).2) =
      some ({ batch := [], z_count := 0, needs_sort := false }, p) :=
  ⟨new_attach p b, new_attach p (b.submit pr q).2⟩

/-- C5: a batch filled with N commands through implicit-order builder calls
(each of which is `pushNext`; no `*_with_z` call, so the needs-sort flag
stays clear), submitted at any priority into an empty queue and flushed
under any sort satisfying the flush sort contract, produces exactly the
renderer calls of the appended commands in append order. -/
theorem implicit_append_fifo (cmds : List DrawCommand) (p : Nat)
    (f : Queue → Queue) (hf : IsPrioritySort f) :
    (renderDrawBuffer f ((appendAll freshBatch cmds).submit p []).1).1 =
      cmds.map dispatchCommand := by
  have hns : (appendAll freshBatch cmds).needs_sort = false :=
    appendAll_needs_sort freshBatch cmds
  have hmap : (appendAll freshBatch cmds).batch.map Prod.snd = cmds := by
    simpa [freshBatch] using appendAll_batch_map freshBatch cmds
  have hq : ((appendAll freshBatch cmds).submit p []).1 = [(p, cmds)] := by
    simp [DrawBatch.submit, hns, hmap]
  rw [hq]
  show ((f [(p, cmds)]).flatMap fun e => e.2.map dispatchCommand) = _
  rw [isPrioritySort_singleton hf]
  simp

/-- Witness for C5: two implicit commands flushed through the concrete
priority sort come out in append order. -/
theorem implicit_append_fifo_witness :
    (renderDrawBuffer sortEntries
        ((appendAll freshBatch
            [DrawCommand.ClearScreen, DrawCommand.SetTarget 1]).submit 3
          []).1).1 =
      [RenderCall.cls, RenderCall.set_active_console 1] :=
  implicit_append_fifo [DrawCommand.ClearScreen, DrawCommand.SetTarget 1] 3
    sortEntries sortEntries_isPrioritySort

/-- C6: for a batch whose needs-sort flag is set (at least one explicit-key
append), `submit` queues the commands of the batch sorted by key ascending,
and the sort is stable: for every key `k`, the subsequence of commands
carrying key `k` (including an explicit key tying an implicit one) is
exactly as it was appended. -/
theorem submit_sorts_stably (b : DrawBatch) (hb : b.needs_sort = true)
    (p : Nat) (q : Queue) :
    (b.submit p q).1 =
      q ++ [(p, (List.insertionSort keyLE b.batch).map Prod.snd)] ∧
    (List.insertionSort keyLE b.batch).Pairwise (fun x y => x.1 ≤ y.1) ∧
    ∀ k, (List.insertionSort keyLE b.batch).filter (fun x => x.1 == k) =
      b.batch.filter (fun x => x.1 == k) := by
  refine ⟨?_, ?_, fun k => filter_insertionSort_keyLE b.batch k⟩
  · simp [DrawBatch.submit, hb]
  · exact (List.sorted_insertionSort keyLE b.batch).imp (fun h => h)

/-- Witness for C6: a batch with an implicit key 0 ("A") and an explicit key
0 appended later ("B") keeps the tie in append order, and the queued list is
the stable-sorted one. -/
theorem submit_sorts_stably_witness :
    (c6batch.submit 2 []).1 =
      [] ++ [(2, (List.insertionSort keyLE c6batch.batch).map Prod.snd)] ∧
    (List.insertionSort keyLE c6batch.batch).Pairwise
      (fun x y => x.1 ≤ y.1) ∧
    (List.insertionSort keyLE c6batch.batch).filter (fun x => x.1 == 0) =
      c6batch.batch.filter (fun x => x.1 == 0) ∧
    (List.insertionSort keyLE c6batch.batch).map Prod.snd =
      [DrawCommand.Print ⟨0, 0⟩ "A", DrawCommand.Print ⟨1, 1⟩ "B"] :=
  ⟨(submit_sorts_stably c6batch rfl 2 []).1,
   (submit_sorts_stably c6batch rfl 2 []).2.1,
   (submit_sorts_stably c6batch rfl 2 []).2.2 0, rfl⟩

/-- C7: after a flush the global queue is empty, and a second flush with no
intervening submission makes no renderer calls: the trace of flush-then-flush
equals the trace of the single flush. -/
theorem flush_idempotent (f : Queue → Queue) (hf : IsPrioritySort f)
    (q : Queue) :
    (renderDrawBuffer f q).2 = [] ∧
    (renderDrawBuffer f (renderDrawBuffer f q).2).1 = [] ∧
    (renderDrawBuffer f q).1 ++
        (renderDrawBuffer f (renderDrawBuffer f q).2).1 =
      (renderDrawBuffer f q).1 := by
  have h2 : (renderDrawBuffer f (renderDrawBuffer f q).2).1 = [] := by
    show ((f []).flatMap fun e => e.2.map dispatchCommand) = []
    rw [isPrioritySort_nil hf]
    rfl
  exact ⟨rfl, h2, by rw [h2, List.append_nil]⟩

/-- Witness for C7 at a concrete one-entry queue and the concrete priority
sort. -/
theorem flush_idempotent_witness :
    (renderDrawBuffer sortEntries [(1, [DrawCommand.ClearScreen])]).2 = [] ∧
    (renderDrawBuffer sortEntries
        (renderDrawBuffer sortEntries [(1, [DrawCommand.ClearScreen])]).2).1 =
      [] ∧
    (renderDrawBuffer sortEntries [(1, [DrawCommand.ClearScreen])]).1 ++
        (renderDrawBuffer sortEntries
          (renderDrawBuffer sortEntries
            [(1, [DrawCommand.ClearScreen])]).2).1 =
      (renderDrawBuffer sortEntries [(1, [DrawCommand.ClearScreen])]).1 :=
  flush_idempotent sortEntries sortEntries_isPrioritySort
    [(1, [DrawCommand.ClearScreen])]

/-- C4: under any sort satisfying the flush sort contract, the priorities
tagged along the flush trace are nondecreasing — so for any two queued
batches with priorities p1 < p2, every renderer call of the p1 batch
precedes every call of the p2 batch, regardless of submission order — and
projecting the tags away recovers the actual flush trace. -/
theorem flush_priority_order (f : Queue → Queue) (hf : IsPrioritySort f)
    (q : Queue) :
    (renderTraceTagged f q).Pairwise (fun a b => a.1 ≤ b.1) ∧
    (renderTraceTagged f q).map Prod.snd = (renderDrawBuffer f q).1 :=
  ⟨pairwise_fst_flatMap (f q) (hf q).2, renderTraceTagged_map_snd f q⟩

/-- Witness for C4: the concrete spec scenario (priority 5 submitted
before priority 1) flushes the priority-1 clear first. -/
theorem flush_priority_order_witness :
    (renderTraceTagged sortEntries q4).Pairwise (fun a b => a.1 ≤ b.1) ∧
    (renderTraceTagged sortEntries q4).map Prod.snd =
      (renderDrawBuffer sortEntries q4).1 ∧
    (renderDrawBuffer sortEntries q4).1 =
      [RenderCall.cls, RenderCall.set 1 1 cpW.fg cpW.bg 64,
       RenderCall.print 2 2 "hi"] :=
  ⟨(flush_priority_order sortEntries sortEntries_isPrioritySort q4).1,
   (flush_priority_order sortEntries sortEntries_isPrioritySort q4).2, rfl⟩

/-- C1: the claim needs the flush-time priority sort to be stable, but the
source sorts with `slice::sort_unstable_by`, whose contract guarantees only
a priority-sorted permutation. `swapEqual` satisfies that entire contract
yet flushes two equal-priority batches (submitted "A" first, "B" second) in
the order B, A — so the sort contract of the code does not preserve submission
order among equal priorities, contradicting the claim. -/
theorem unstable_sort_breaks_equal_priority_order :
    IsPrioritySort swapEqual ∧
    (renderDrawBuffer swapEqual cexQueue).1 =
      [RenderCall.print 2 2 "B", RenderCall.print 1 1 "A"] := by
  constructor
  · intro l
    by_cases h : l = cexQueue
    · subst h
      rw [swapEqual, if_pos rfl]
      exact ⟨List.reverse_perm cexQueue, by decide⟩
    · rw [swapEqual, if_neg h]
      exact sortEntries_isPrioritySort l
  · decide

end BracketTerminal
